import Mathlib

/-!
Verification development for the FlappyBird repository (game.py).

The game's core is embedded shallowly over the reals: positions and
velocities are real numbers, the planner's quadratic solve uses
`Real.sqrt`, and operations that can raise a Python exception
(`math.sqrt` of a negative number, division by zero, list indexing past
the end) are modelled with `Option`, `none` standing for a raised
exception.  The planner's `while True` loop is modelled with an explicit
fuel parameter; `none` also stands for running out of fuel.
-/

namespace FlappyBird

/-- Game-unit position, `(0, 0)` at the bottom left (class `Position`). -/
structure Pos where
  x : ℝ
  y : ℝ

/-- `Position.__add__`. -/
instance : Add Pos := ⟨fun p q => ⟨p.x + q.x, p.y + q.y⟩⟩

/-- `Position.__sub__`. -/
instance : Sub Pos := ⟨fun p q => ⟨p.x - q.x, p.y - q.y⟩⟩

theorem Pos.add_def (p q : Pos) : p + q = ⟨p.x + q.x, p.y + q.y⟩ := rfl

theorem Pos.sub_def (p q : Pos) : p - q = ⟨p.x - q.x, p.y - q.y⟩ := rfl

/-- Agent state: position and vertical velocity (class `Bird`). -/
structure Bird where
  pos : Pos
  y_vel : ℝ

namespace Bird

/-- Speed at which pipes move left towards the bird. -/
def X_VELOCITY : ℝ := 0.2

/-- Downward acceleration (game units / second^2). -/
def GRAVITY_ACCEL : ℝ := -1.7

/-- Bird width in game units. -/
def WIDTH : ℝ := 0.1

/-- Bird height in game units. -/
def HEIGHT : ℝ := 0.09

/-- Velocity change per flap. -/
def FLAP_DELTA_V : ℝ := 0.8

/-- `Bird.__init__`: the bird starts at `(0.25, 0.5)` with zero vertical
velocity. -/
def init : Bird := ⟨⟨0.25, 0.5⟩, 0⟩

/-- `Bird.flap`. -/
def flap (b : Bird) : Bird := { b with y_vel := b.y_vel + FLAP_DELTA_V }

/-- `Bird.update`: one kinematics step of duration `delta_t`. -/
def update (b : Bird) (delta_t : ℝ) : Bird :=
  { b with
    pos := ⟨b.pos.x, b.pos.y + b.y_vel * delta_t + 0.5 * GRAVITY_ACCEL * delta_t ^ 2⟩
    y_vel := b.y_vel + GRAVITY_ACCEL * delta_t }

end Bird

namespace Pipe

/-- Size of the opening between a pair of pipes. -/
def OPENING : ℝ := 0.25

/-- Pipe width in game units. -/
def WIDTH : ℝ := 0.125

/-- `Pipe.__init__`: the stored state of a pipe is the center of its
opening, placed at `x = 1.0 + WIDTH - x_offset`. -/
def init_center (center_height x_offset : ℝ) : Pos :=
  ⟨1.0 + WIDTH - x_offset, center_height⟩

/-- `Pipe.update`: move the pipe leftward at `Bird.X_VELOCITY`. -/
def update (center_pos : Pos) (delta_t : ℝ) : Pos :=
  ⟨center_pos.x - Bird.X_VELOCITY * delta_t, center_pos.y⟩

end Pipe

/-- `quadratic_formula` (game.py).  A discriminant within `0.00001` of zero
is clamped to zero.  `none` models a raised exception: `math.sqrt` raises
`ValueError` on a negative (unclamped) discriminant, and the division
raises `ZeroDivisionError` when `a = 0`. -/
noncomputable def quadratic_formula (a b c : ℝ) : Option (ℝ × ℝ) :=
  let discriminant_raw := b ^ 2 - 4 * a * c
  let discriminant := if |discriminant_raw| < 0.00001 then 0 else discriminant_raw
  if discriminant < 0 then none
  else if a = 0 then none
  else
    some ((-b + Real.sqrt discriminant) / (2 * a),
          (-b - Real.sqrt discriminant) / (2 * a))

/-- Evaluation helper: when the clamp does not fire, the discriminant is
nonnegative and `a ≠ 0`, `quadratic_formula` returns the two closed-form
roots. -/
theorem quadratic_formula_eval (a b c D : ℝ) (hD : b ^ 2 - 4 * a * c = D)
    (htol : ¬ |D| < 0.00001) (hpos : 0 ≤ D) (ha : a ≠ 0) :
    quadratic_formula a b c =
      some ((-b + Real.sqrt D) / (2 * a), (-b - Real.sqrt D) / (2 * a)) := by
  simp only [quadratic_formula, hD, if_neg htol, if_neg (not_lt.mpr hpos), if_neg ha]

/-- Evaluation helper for a perfect-square discriminant: the square root is
the exact rational `s`. -/
theorem quadratic_formula_eval_sq (a b c D s : ℝ) (hD : b ^ 2 - 4 * a * c = D)
    (htol : ¬ |D| < 0.00001) (hs : 0 ≤ s) (hsq : s ^ 2 = D) (ha : a ≠ 0) :
    quadratic_formula a b c = some ((-b + s) / (2 * a), (-b - s) / (2 * a)) := by
  have hpos : 0 ≤ D := hsq ▸ sq_nonneg s
  rw [quadratic_formula_eval a b c D hD htol hpos ha]
  rw [show Real.sqrt D = s from by rw [← hsq, Real.sqrt_sq hs]]

/-- C2: for a downward-opening quadratic (`a < 0`, as in every flap-time
solve, where `a = 0.5 * GRAVITY_ACCEL = -0.85`), the second component
returned by `quadratic_formula` — the `minus` root `(-b - sqrt D)/(2a)` —
is at least the first component, and whenever the discriminant is at or
above the clamping tolerance (so the clamp leaves it untouched and it is
nonnegative) every real root of the quadratic is at most that second
component: it is the larger (later) of the two real roots. -/
theorem C2_minus_root_is_larger (a b c p m : ℝ) (ha : a < 0)
    (h : quadratic_formula a b c = some (p, m)) :
    p ≤ m ∧
      (0.00001 ≤ b ^ 2 - 4 * a * c →
        ∀ r : ℝ, a * r ^ 2 + b * r + c = 0 → r ≤ m) := by
  have ha0 : a ≠ 0 := ne_of_lt ha
  by_cases h1 : |b ^ 2 - 4 * a * c| < 0.00001
  · -- clamped branch: `p = m = -b / (2 * a)`
    have h' : quadratic_formula a b c = some (-b / (2 * a), -b / (2 * a)) := by
      simp only [quadratic_formula, if_pos h1, if_neg (lt_irrefl (0 : ℝ)),
        if_neg ha0, Real.sqrt_zero, add_zero, sub_zero]
    rw [h', Option.some.injEq, Prod.mk.injEq] at h
    obtain ⟨hp, hm⟩ := h
    refine ⟨by rw [← hp, ← hm], fun htol r hr => ?_⟩
    exact absurd h1 (not_lt.mpr (le_trans htol (le_abs_self _)))
  · -- unclamped branch
    have hD : 0 ≤ b ^ 2 - 4 * a * c := by
      by_contra hneg
      push_neg at hneg
      have hnone : quadratic_formula a b c = none := by
        simp only [quadratic_formula, if_neg h1, if_pos hneg]
      rw [hnone] at h
      exact Option.noConfusion h
    rw [quadratic_formula_eval a b c _ rfl h1 hD ha0, Option.some.injEq,
      Prod.mk.injEq] at h
    obtain ⟨hp, hm⟩ := h
    have hs0 : 0 ≤ Real.sqrt (b ^ 2 - 4 * a * c) := Real.sqrt_nonneg _
    have hs2 : Real.sqrt (b ^ 2 - 4 * a * c) ^ 2 = b ^ 2 - 4 * a * c :=
      Real.sq_sqrt hD
    have h2a : 2 * a < 0 := by linarith
    have hpm : p ≤ m := by
      rw [← hp, ← hm, div_le_div_right_of_neg h2a]
      linarith
    refine ⟨hpm, fun _ r hr => ?_⟩
    -- the quadratic factors through its two roots
    have hfact : a * ((r - p) * (r - m)) = 0 := by
      rw [← hp, ← hm]
      rw [← hr]
      field_simp
      nlinarith [hs2]
    rcases mul_eq_zero.mp hfact with h0 | h0
    · exact absurd h0 ha0
    · rcases mul_eq_zero.mp h0 with h0 | h0
      · have : r = p := by linarith [sub_eq_zero.mp h0]
        linarith
      · have : r = m := by linarith [sub_eq_zero.mp h0]
        linarith

/-- C2 witness: at `a = -1, b = 0, c = 1` the discriminant is `4`, the
returned pair is `(-1, 1)`, and the second component `1` is the larger
root. -/
theorem C2_minus_root_is_larger_witness :
    quadratic_formula (-1) 0 1 = some (-1, 1) ∧ (-1 : ℝ) ≤ 1 := by
  have heval : quadratic_formula (-1) 0 1 = some (-1, 1) := by
    rw [quadratic_formula_eval_sq (-1) 0 1 4 2 (by norm_num) (by norm_num)
      (by norm_num) (by norm_num) (by norm_num)]
    norm_num
  exact ⟨heval, (C2_minus_root_is_larger (-1) 0 1 (-1) 1 (by norm_num) heval).1⟩

/-- C7 counterexample: at `(a, b, c) = (1, 0, 1)` the discriminant is
`-4`, which is negative but *not* within the clamping tolerance, so
`quadratic_formula` does not recover: `math.sqrt` raises a domain error,
modelled here as `none` — the error propagates to the caller. -/
theorem C7_negative_discriminant_not_always_clamped :
    quadratic_formula 1 0 1 = none := by
  simp only [quadratic_formula]
  norm_num

/-- C7 amended: the clamp recovers from a negative discriminant only when
it lies within the tolerance: for `a ≠ 0` and `-0.00001 < b² - 4ac < 0`
the discriminant is clamped to zero before the square root and
`quadratic_formula` returns the repeated root `-b/(2a)` without error;
a discriminant at or below `-0.00001` instead raises. -/
theorem C7_clamp_only_within_tolerance (a b c : ℝ) (ha : a ≠ 0)
    (hlo : -0.00001 < b ^ 2 - 4 * a * c) (hhi : b ^ 2 - 4 * a * c < 0) :
    quadratic_formula a b c = some (-b / (2 * a), -b / (2 * a)) := by
  have htol : |b ^ 2 - 4 * a * c| < 0.00001 := by
    rw [abs_lt]; constructor <;> linarith
  simp only [quadratic_formula, if_pos htol, lt_irrefl, if_neg ha, if_false,
    Real.sqrt_zero]
  norm_num

/-- C7 amended witness: at `(a, b, c) = (-1, 0, -0.000001)` the
discriminant is `-0.000004`, inside the tolerance band, and the clamp
yields the repeated root `0`. -/
theorem C7_clamp_only_within_tolerance_witness :
    quadratic_formula (-1) 0 (-0.000001) = some (0, 0) := by
  have h := C7_clamp_only_within_tolerance (-1) 0 (-0.000001) (by norm_num)
    (by norm_num) (by norm_num)
  rw [h]
  norm_num

/-! ### Obstacle generation (main loop: `new_game` and "create new pipe if needed") -/

/-- Min height the center of a pipe opening is allowed to be at. -/
def MIN_OPENING_HEIGHT : ℝ := 0.2

/-- Max height the center of a pipe opening is allowed to be at. -/
def MAX_OPENING_HEIGHT : ℝ := 1 - MIN_OPENING_HEIGHT

/-- Opening height of the first pipe of a game (`new_game`):
`random() * (MAX_OPENING_HEIGHT - MIN_OPENING_HEIGHT) + MIN_OPENING_HEIGHT`,
`u` being the uniform sample in `[0, 1)`. -/
def initial_opening_height (u : ℝ) : ℝ :=
  u * (MAX_OPENING_HEIGHT - MIN_OPENING_HEIGHT) + MIN_OPENING_HEIGHT

/-- Opening height of a newly spawned pipe: a uniform delta in
`[-0.2, 0.2)` derived from the sample `u`, plus the margin-zone bias
correction, added to the previous rightmost pipe's opening height. -/
noncomputable def new_opening_height (opening_height u : ℝ) : ℝ :=
  let max_diff : ℝ := 0.2
  let delta_y := (u - 0.5) * max_diff * 2
  let delta_y :=
    if opening_height < MIN_OPENING_HEIGHT + max_diff then
      delta_y + (MIN_OPENING_HEIGHT + max_diff - opening_height)
    else if opening_height > MAX_OPENING_HEIGHT - max_diff then
      delta_y - (-MAX_OPENING_HEIGHT + max_diff + opening_height)
    else delta_y
  opening_height + delta_y

/-- The sequence of opening heights appended to the obstacle sequence when
starting from height `h0`, one per uniform sample. -/
noncomputable def opening_height_seq (h0 : ℝ) : List ℝ → List ℝ
  | [] => []
  | u :: us =>
    new_opening_height h0 u :: opening_height_seq (new_opening_height h0 u) us

/-- C4: one generator step stays within `[MIN_OPENING_HEIGHT,
MAX_OPENING_HEIGHT]` for any previous height within those bounds and any
sample in `[0, 1)`; consequently — starting from the initial pipe, whose
height also lies within the bounds — every opening height ever appended
stays within the bounds. -/
theorem C4_opening_height_bounds :
    (∀ h u : ℝ, 0 ≤ u → u < 1 → MIN_OPENING_HEIGHT ≤ h → h ≤ MAX_OPENING_HEIGHT →
      MIN_OPENING_HEIGHT ≤ new_opening_height h u ∧
        new_opening_height h u ≤ MAX_OPENING_HEIGHT) ∧
    (∀ u : ℝ, 0 ≤ u → u < 1 →
      MIN_OPENING_HEIGHT ≤ initial_opening_height u ∧
        initial_opening_height u ≤ MAX_OPENING_HEIGHT) ∧
    (∀ (h0 : ℝ) (us : List ℝ), MIN_OPENING_HEIGHT ≤ h0 → h0 ≤ MAX_OPENING_HEIGHT →
      (∀ u ∈ us, 0 ≤ u ∧ u < 1) →
      ∀ h ∈ opening_height_seq h0 us,
        MIN_OPENING_HEIGHT ≤ h ∧ h ≤ MAX_OPENING_HEIGHT) := by
  have step : ∀ h u : ℝ, 0 ≤ u → u < 1 → MIN_OPENING_HEIGHT ≤ h →
      h ≤ MAX_OPENING_HEIGHT →
      MIN_OPENING_HEIGHT ≤ new_opening_height h u ∧
        new_opening_height h u ≤ MAX_OPENING_HEIGHT := by
    intro h u hu0 hu1 hl hh
    simp only [new_opening_height, MIN_OPENING_HEIGHT, MAX_OPENING_HEIGHT] at *
    split_ifs with hA hB <;> constructor <;> nlinarith
  refine ⟨step, ?_, ?_⟩
  · intro u hu0 hu1
    simp only [initial_opening_height, MIN_OPENING_HEIGHT, MAX_OPENING_HEIGHT]
    constructor <;> nlinarith
  · intro h0 us
    induction us generalizing h0 with
    | nil => intro _ _ _ h hmem; simp [opening_height_seq] at hmem
    | cons u us ih =>
      intro hl hh hus h hmem
      obtain ⟨hu, hus'⟩ := List.forall_mem_cons.mp hus
      have hstep := step h0 u hu.1 hu.2 hl hh
      simp only [opening_height_seq, List.mem_cons] at hmem
      rcases hmem with rfl | hmem
      · exact hstep
      · exact ih (new_opening_height h0 u) hstep.1 hstep.2 hus' h hmem

/-- C4 witness: a concrete step from height `0.3` with sample `0` stays
within the bounds, as does the initial height for sample `0`, and the
two-step sequence from `0.5` with samples `[0, 1/2]`. -/
theorem C4_opening_height_bounds_witness :
    (MIN_OPENING_HEIGHT ≤ new_opening_height 0.3 0 ∧
      new_opening_height 0.3 0 ≤ MAX_OPENING_HEIGHT) ∧
    (MIN_OPENING_HEIGHT ≤ initial_opening_height 0 ∧
      initial_opening_height 0 ≤ MAX_OPENING_HEIGHT) ∧
    ∀ h ∈ opening_height_seq 0.5 [0, 1/2],
      MIN_OPENING_HEIGHT ≤ h ∧ h ≤ MAX_OPENING_HEIGHT := by
  refine ⟨?_, ?_, ?_⟩
  · exact C4_opening_height_bounds.1 0.3 0 (by norm_num) (by norm_num)
      (by norm_num [MIN_OPENING_HEIGHT]) (by norm_num [MAX_OPENING_HEIGHT, MIN_OPENING_HEIGHT])
  · exact C4_opening_height_bounds.2.1 0 (by norm_num) (by norm_num)
  · exact C4_opening_height_bounds.2.2 0.5 [0, 1/2]
      (by norm_num [MIN_OPENING_HEIGHT])
      (by norm_num [MAX_OPENING_HEIGHT, MIN_OPENING_HEIGHT])
      (by intro u hu; rcases List.mem_cons.mp hu with rfl | hu
          · norm_num
          · rcases List.mem_cons.mp hu with rfl | hu
            · norm_num
            · simp at hu)

/-! ### Collision detection (main loop: "restarts game if bird collides") -/

/-- The collision check run every tick: collision with the ground or
ceiling (the bird's center strictly beyond half its height from the
vertical bounds), otherwise collision with any pipe whose horizontal
distance is within the combined half-widths and whose opening the bird's
box exceeds. -/
noncomputable def collision_check (bird : Bird) (pipes : List Pos) : Bool :=
  if bird.pos.y < Bird.HEIGHT / 2 ∨ bird.pos.y > 1 - Bird.HEIGHT / 2 then true
  else
    pipes.any fun pipe =>
      if |pipe.x - bird.pos.x| ≤ Bird.WIDTH / 2 + Pipe.WIDTH / 2 then
        if bird.pos.y + Bird.HEIGHT / 2 ≥ pipe.y + Pipe.OPENING / 2 ∨
            bird.pos.y - Bird.HEIGHT / 2 ≤ pipe.y - Pipe.OPENING / 2 then true
        else false
      else false

/-- C5 counterexample: with the bird's center exactly at half its height
(`y = 0.045 = HEIGHT / 2`, bottom edge exactly on the ground), zero
velocity, and the single fresh pipe horizontally out of range, the
collision check reports *no* collision — the ground test uses a strict
inequality. -/
theorem C5_ground_boundary_no_collision :
    collision_check ⟨⟨0.25, 0.045⟩, 0⟩ [⟨1.125, 0.5⟩] = false := by
  have hout : ¬ ((0.045 : ℝ) < Bird.HEIGHT / 2 ∨ (0.045 : ℝ) > 1 - Bird.HEIGHT / 2) := by
    norm_num [Bird.HEIGHT]
  simp only [collision_check, hout, if_false, List.any_cons, List.any_nil]
  rw [if_neg (by norm_num [abs_of_nonneg, Bird.WIDTH, Pipe.WIDTH])]
  simp

/-- C5 amended: the ground test is strict — the collision check reports a
collision whenever the bird's center is strictly below half its height
(bottom edge strictly below the ground), but at exactly
`y = HEIGHT / 2` (with no pipe in horizontal range) no collision is
reported. -/
theorem C5_ground_collision_strict (bird : Bird) (pipes : List Pos)
    (h : bird.pos.y < Bird.HEIGHT / 2) :
    collision_check bird pipes = true := by
  simp only [collision_check, if_pos (Or.inl h)]

/-- C5 amended witness: a bird strictly below half its height collides. -/
theorem C5_ground_collision_strict_witness :
    collision_check ⟨⟨0.25, 0.04⟩, 0⟩ [] = true :=
  C5_ground_collision_strict ⟨⟨0.25, 0.04⟩, 0⟩ [] (by norm_num [Bird.HEIGHT])

/-! ### Pipe spawning (main loop: "create new pipe if needed") -/

/-- Spawn threshold: a new pipe is created once the rightmost pipe's
center has come this far left. -/
noncomputable def min_allowed_x : ℝ := 0.6 + Pipe.WIDTH / 2

/-- C6: whenever the spawn trigger fires (`closest_x ≤ min_allowed_x`),
the newly constructed pipe (with `x_offset = min_allowed_x - closest_x`)
has its center exactly `0.4625` game units to the right of the previous
rightmost pipe's center, independent of how far past the threshold that
pipe had moved. -/
theorem C6_spawn_spacing_constant (closest_x h : ℝ)
    (htrig : closest_x ≤ min_allowed_x) :
    (Pipe.init_center h (min_allowed_x - closest_x)).x - closest_x = 0.4625 := by
  simp only [Pipe.init_center, min_allowed_x, Pipe.WIDTH]
  ring_nf

/-- C6 witness: a rightmost pipe that overshot the threshold down to
`x = 0.66` gets its successor exactly `0.4625` units to its right. -/
theorem C6_spawn_spacing_constant_witness :
    (Pipe.init_center 0.5 (min_allowed_x - 0.66)).x - 0.66 = 0.4625 :=
  C6_spawn_spacing_constant 0.66 0.5 (by norm_num [min_allowed_x, Pipe.WIDTH])

/-- C9: the bird's horizontal coordinate is `0.25` at construction and is
changed by no operation — neither the kinematics update nor a flap — and
apparent forward motion comes from pipes translating leftward at
`Bird.X_VELOCITY`. -/
theorem C9_bird_x_fixed :
    Bird.init.pos.x = 0.25 ∧
    (∀ (b : Bird) (dt : ℝ), (b.update dt).pos.x = b.pos.x) ∧
    (∀ b : Bird, b.flap.pos.x = b.pos.x) ∧
    (∀ (p : Pos) (dt : ℝ), (Pipe.update p dt).x = p.x - Bird.X_VELOCITY * dt) :=
  ⟨rfl, fun _ _ => rfl, fun _ => rfl, fun _ _ => rfl⟩

/-! ### The autopilot trajectory planner (`new_path_flap_times`)

The Python function closes over the bird's state and `path_data`; it
reads `bird.pos.y`, `bird.y_vel` and `path_data[0]` (the previous
schedule's lowered flag) and the two opening centers `p1`, `p2`.  Its
`while True` loop is modelled with an explicit fuel parameter. -/

/-- The inputs the planner closure reads besides the bird's kinematic
state: the two opening centers and the previous schedule's lowered flag
(`path_data[0]`). -/
structure PlanParams where
  p1 : Pos
  p2 : Pos
  prev_lowered : Bool

/-- Total time to traverse the path between the two opening centers. -/
noncomputable def total_time (pp : PlanParams) : ℝ :=
  (pp.p2 - pp.p1).x / Bird.X_VELOCITY

/-- How far below a pipe opening the bird maintains height on flat
portions. -/
noncomputable def normal_y_offset : ℝ := (Pipe.OPENING / 2 - Bird.HEIGHT / 2) / 2

/-- The lowered flap-line offset, used when the normal line would make the
bird collide with a pipe. -/
noncomputable def lowered_y_offset : ℝ := Pipe.OPENING / 2 - Bird.HEIGHT / 2 - 0.01

/-- How far beyond pipe openings the flat portions extend. -/
noncomputable def flat_radius : ℝ := Pipe.WIDTH / 2 + Bird.WIDTH / 2 + 0.01

/-- Time spent on each flat portion. -/
noncomputable def t_on_flat : ℝ := flat_radius / Bird.X_VELOCITY

/-- The diagonal portion of the path, corrected when the previous path was
lowered. -/
noncomputable def diag_vector (pp : PlanParams) : Pos :=
  let v := (pp.p2 - ⟨flat_radius, 0⟩) - (pp.p1 + ⟨flat_radius, 0⟩)
  if pp.prev_lowered then ⟨v.x, v.y + (lowered_y_offset - normal_y_offset)⟩ else v

/-- Slope of the diagonal portion. -/
noncomputable def diag_slope (pp : PlanParams) : ℝ :=
  (diag_vector pp).y / (diag_vector pp).x

/-- `step_times`: the path times at which each of the three steps ends. -/
noncomputable def step_time (pp : PlanParams) : ℕ → ℝ
  | 0 => t_on_flat
  | 1 => total_time pp - t_on_flat
  | _ => total_time pp

/-- The planner loop's mutable state: current step, lowered flag, time
along the path, simulated bird position and velocity, and the flap times
accumulated so far. -/
structure PlanState where
  curr_step : ℕ
  lower_offset : Bool
  t_path : ℝ
  y_pos : ℝ
  y_vel : ℝ
  flap_times : List ℝ

/-- The planner's `freefall t`: advance the simulated bird by `t` under
gravity, with the `+ 0.00001` bias that keeps the next root-finding step
away from exact tangency. -/
noncomputable def freefall (st : PlanState) (t : ℝ) : PlanState :=
  { st with
    t_path := st.t_path + t
    y_pos := st.y_pos + st.y_vel * t + 0.5 * Bird.GRAVITY_ACCEL * t ^ 2 + 0.00001
    y_vel := st.y_vel + Bird.GRAVITY_ACCEL * t }

/-- The slope used by `time_to_next_flap` in the given step. -/
noncomputable def curr_slope (pp : PlanParams) (step : ℕ) : ℝ :=
  if step = 1 then diag_slope pp else 0

/-- The `y_offset` used by `time_to_next_flap`: the lowered offset when the
schedule has been lowered, overridden to the lowered offset in steps 0 and
1 when the *previous* schedule was lowered, and shifted by the diagonal's
rise over the flat radius in step 1 (where it acts as a y-intercept). -/
noncomputable def ttnf_y_offset (pp : PlanParams) (st : PlanState) : ℝ :=
  let base := if st.lower_offset then lowered_y_offset else normal_y_offset
  if st.curr_step = 0 then (if pp.prev_lowered then lowered_y_offset else base)
  else if st.curr_step = 1 then
    (if pp.prev_lowered then lowered_y_offset else base) + diag_slope pp * flat_radius
  else base

/-- The linear coefficient of the flap-time quadratic. -/
noncomputable def ttnf_b (pp : PlanParams) (st : PlanState) : ℝ :=
  st.y_vel - curr_slope pp st.curr_step * Bird.X_VELOCITY

/-- The constant coefficient of the flap-time quadratic: the signed gap
between the simulated bird and the flap line. -/
noncomputable def ttnf_c (pp : PlanParams) (st : PlanState) : ℝ :=
  if st.curr_step = 0 then st.y_pos - (pp.p1.y - ttnf_y_offset pp st)
  else if st.curr_step = 1 then
    st.y_pos - (pp.p1.y - ttnf_y_offset pp st) -
      Bird.X_VELOCITY * diag_slope pp * st.t_path
  else st.y_pos - (pp.p2.y - ttnf_y_offset pp st)

/-- `time_to_next_flap`: the larger root (second component) of the
flap-time quadratic; `none` when `quadratic_formula` raises. -/
noncomputable def time_to_next_flap (pp : PlanParams) (st : PlanState) : Option ℝ :=
  (quadratic_formula (0.5 * Bird.GRAVITY_ACCEL) (ttnf_b pp st) (ttnf_c pp st)).map
    (fun r => r.2)

/-- `y_vel_after_flap`: the simulated velocity right after a flap. -/
noncomputable def y_vel_after_flap (st : PlanState) : ℝ :=
  st.y_vel + Bird.FLAP_DELTA_V

/-- `max_height`: apex of the post-flap ballistic arc. -/
noncomputable def max_height (st : PlanState) : ℝ :=
  st.y_pos - y_vel_after_flap st ^ 2 / (2 * Bird.GRAVITY_ACCEL)

/-- `touches_pipe_on_y`: whether the post-flap apex reaches the relevant
pipe opening's top edge on the y axis. -/
noncomputable def touches_pipe_on_y (pp : PlanParams) (st : PlanState) : Prop :=
  max_height st + Bird.HEIGHT / 2 >
    (if st.curr_step = 0 then pp.p1.y else pp.p2.y) + Pipe.OPENING / 2

noncomputable instance (pp : PlanParams) (st : PlanState) :
    Decidable (touches_pipe_on_y pp st) :=
  Real.decidableLT _ _

/-- `actually_touches_pipe`, evaluated when `touches_pipe_on_y` holds: in
step 1 the bird must additionally still be within the end pipe's
horizontal footprint when it exits the opening vertically (a further
quadratic solve, which can raise); in the flat steps a vertical touch is
always an actual touch. -/
noncomputable def actually_touches_pipe (pp : PlanParams) (st : PlanState) :
    Option Bool :=
  if st.curr_step = 1 then
    let touching_pipe_min_t :=
      total_time pp - (Pipe.WIDTH / 2 + Bird.WIDTH / 2) / Bird.X_VELOCITY
    (quadratic_formula (0.5 * Bird.GRAVITY_ACCEL) (y_vel_after_flap st)
        (-(pp.p2.y + Pipe.OPENING / 2 - Bird.HEIGHT / 2 - st.y_pos))).map
      (fun r => decide (st.t_path + r.2 > touching_pipe_min_t))
  else some true

/-- The tail of one loop iteration, after the step-transition check: free
fall to the flap time `dt`, the collision ("touches pipe") check with the
lowering correction, appending the flap time and applying the flap
impulse to the simulated velocity. -/
noncomputable def flap_step (pp : PlanParams) (st : PlanState) (dt : ℝ) :
    Option PlanState :=
  let st1 := freefall st dt
  let after : Option PlanState :=
    if touches_pipe_on_y pp st1 then
      match actually_touches_pipe pp st1 with
      | none => none
      | some true =>
        let st2 := { freefall st1 (-dt) with lower_offset := true }
        match time_to_next_flap pp st2 with
        | none => none
        | some dt2 => some (freefall st2 dt2)
      | some false => some st1
    else some st1
  after.map fun st3 =>
    { st3 with
      flap_times := st3.flap_times ++ [st3.t_path]
      y_vel := y_vel_after_flap st1 }

/-- The planner's `while True` loop, with fuel.  Each iteration solves for
the next flap time; if it falls past the current step's end time the
simulated bird is brought exactly to the step boundary, the step advances
(step 3 ends construction), and the flap time is recomputed; then the
iteration tail `flap_step` runs. -/
noncomputable def plan_loop (pp : PlanParams) : ℕ → PlanState → Option (Bool × List ℝ)
  | 0, _ => none
  | fuel + 1, st =>
    match time_to_next_flap pp st with
    | none => none
    | some dt =>
      if st.t_path + dt > step_time pp st.curr_step then
        let t_to_next_step := step_time pp st.curr_step - st.t_path
        let st1 := { st with curr_step := st.curr_step + 1 }
        if st1.curr_step = 3 then some (st1.lower_offset, st1.flap_times)
        else
          match time_to_next_flap pp (freefall st1 t_to_next_step) with
          | none => none
          | some dt2 =>
            match flap_step pp (freefall st1 t_to_next_step) dt2 with
            | none => none
            | some st3 => plan_loop pp fuel st3
      else
        match flap_step pp st dt with
        | none => none
        | some st3 => plan_loop pp fuel st3

/-- `new_path_flap_times`: plan the flap schedule from the bird's current
state through the path from `p1` to `p2`.  Returns the lowered flag and
the list of flap times (`none` models a raised exception or running out
of fuel). -/
noncomputable def new_path_flap_times (y_pos y_vel : ℝ) (prev_lowered : Bool)
    (p1 p2 : Pos) (fuel : ℕ) : Option (Bool × List ℝ) :=
  plan_loop ⟨p1, p2, prev_lowered⟩ fuel ⟨0, false, 0, y_pos, y_vel, []⟩

/-- Shorthand for the discriminant of the flap-time quadratic. -/
noncomputable def ttnf_disc (pp : PlanParams) (st : PlanState) : ℝ :=
  ttnf_b pp st ^ 2 - 4 * (0.5 * Bird.GRAVITY_ACCEL) * ttnf_c pp st

/-- When the simulated bird is strictly above the flap line (`ttnf_c > 0`)
and the discriminant is at least the clamping tolerance,
`time_to_next_flap` returns a strictly positive flap time. -/
theorem ttnf_some_pos (pp : PlanParams) (st : PlanState)
    (hc : 0 < ttnf_c pp st) (hd : 0.00001 ≤ ttnf_disc pp st) :
    ∃ dt, time_to_next_flap pp st = some dt ∧ 0 < dt := by
  have hg : Bird.GRAVITY_ACCEL = (-1.7 : ℝ) := rfl
  have hD0 : 0 ≤ ttnf_disc pp st := le_trans (by norm_num) hd
  have htol : ¬ |ttnf_disc pp st| < 0.00001 :=
    not_lt.mpr (le_trans hd (le_abs_self _))
  have ha : (0.5 * Bird.GRAVITY_ACCEL : ℝ) ≠ 0 := by norm_num [hg]
  have heval := quadratic_formula_eval (0.5 * Bird.GRAVITY_ACCEL)
    (ttnf_b pp st) (ttnf_c pp st) (ttnf_disc pp st) rfl htol hD0 ha
  refine ⟨_, by rw [time_to_next_flap, heval]; rfl, ?_⟩
  have habs : |ttnf_b pp st| < Real.sqrt (ttnf_disc pp st) := by
    rw [Real.lt_sqrt (abs_nonneg _), sq_abs, ttnf_disc]
    nlinarith [hc, hg]
  have hnum : -ttnf_b pp st - Real.sqrt (ttnf_disc pp st) < 0 := by
    have := neg_abs_le (ttnf_b pp st)
    linarith
  have hden : (2 * (0.5 * Bird.GRAVITY_ACCEL) : ℝ) < 0 := by norm_num [hg]
  exact div_pos_of_neg_of_neg hnum hden

/-- Turning on a state's lowered flag (keeping the step) never decreases
the `y_offset` used by `time_to_next_flap`: the lowered offset is the
larger base and the step-1 intercept shift is shared. -/
theorem ttnf_y_offset_le_of_lowered (pp : PlanParams) (st st2 : PlanState)
    (hstep : st2.curr_step = st.curr_step) (hlow : st2.lower_offset = true) :
    ttnf_y_offset pp st ≤ ttnf_y_offset pp st2 := by
  have hnl : normal_y_offset ≤ lowered_y_offset := by
    norm_num [normal_y_offset, lowered_y_offset, Pipe.OPENING, Bird.HEIGHT]
  simp only [ttnf_y_offset, hstep, hlow, eq_self_iff_true, if_true]
  split_ifs <;> linarith

/-- If additionally the path time is unchanged and the position has gained
the two freefall biases of the `-dt` rewind, then `ttnf_c` grows by at
least `0.00002`, in every step. -/
theorem ttnf_c_ge_of_lowered (pp : PlanParams) (st st2 : PlanState)
    (hstep : st2.curr_step = st.curr_step) (hlow : st2.lower_offset = true)
    (ht : st2.t_path = st.t_path) (hy : st2.y_pos = st.y_pos + 0.00002) :
    ttnf_c pp st + 0.00002 ≤ ttnf_c pp st2 := by
  have hoff := ttnf_y_offset_le_of_lowered pp st st2 hstep hlow
  simp only [ttnf_c, hstep, ht, hy]
  split_ifs <;> linarith

/-- C3 amended: a successful planner iteration tail (`flap_step`), run
from a state strictly above the flap line with an unclamped discriminant,
appends exactly one timestamp (its final path time) and that timestamp
strictly exceeds the path time at which the tail began, in every step and
also when the lowering correction fires.  This per-iteration guarantee is
all that survives of the claimed invariant: a step transition inside the
loop can rewind the path clock between two tails, so the returned
schedule itself need not be increasing, and its entries need not lie
within the path's total duration (see the counterexample below). -/
theorem C3_successful_iteration_appends_later_time (pp : PlanParams)
    (st : PlanState) (dt : ℝ) (st3 : PlanState)
    (hc : 0 < ttnf_c pp st) (hd : 0.00001 ≤ ttnf_disc pp st)
    (hdt : time_to_next_flap pp st = some dt)
    (hfs : flap_step pp st dt = some st3) :
    st3.flap_times = st.flap_times ++ [st3.t_path] ∧
      st.t_path < st3.t_path := by
  have hg : Bird.GRAVITY_ACCEL = (-1.7 : ℝ) := rfl
  have hpos : 0 < dt := by
    obtain ⟨dt', hdt', hpos'⟩ := ttnf_some_pos pp st hc hd
    rw [hdt'] at hdt
    exact Option.some.inj hdt ▸ hpos'
  by_cases htou : touches_pipe_on_y pp (freefall st dt)
  · rcases hact : actually_touches_pipe pp (freefall st dt) with _ | b
    · -- the step-1 exit solve raised: contradicts the tail's success
      rw [flap_step] at hfs
      simp only [if_pos htou, hact, Option.map_none'] at hfs
      exact Option.noConfusion hfs
    · cases b with
      | false =>
        -- a vertical touch that is not an actual touch: append directly
        rw [flap_step] at hfs
        simp only [if_pos htou, hact, Option.map_some'] at hfs
        obtain rfl := Option.some.inj hfs
        refine ⟨rfl, ?_⟩
        show st.t_path < st.t_path + dt
        linarith
      | true =>
        -- the lowering correction fires: rewind, lower the line, re-solve
        set st2 : PlanState :=
          { freefall (freefall st dt) (-dt) with lower_offset := true } with hst2
        have hst2step : st2.curr_step = st.curr_step := rfl
        have hst2low : st2.lower_offset = true := rfl
        have hst2flaps : st2.flap_times = st.flap_times := rfl
        have hst2vel : st2.y_vel = st.y_vel := by
          show (freefall (freefall st dt) (-dt)).y_vel = st.y_vel
          simp only [freefall]
          ring
        have hst2pos : st2.y_pos = st.y_pos + 0.00002 := by
          show (freefall (freefall st dt) (-dt)).y_pos = st.y_pos + 0.00002
          simp only [freefall]
          ring
        have hst2t : st2.t_path = st.t_path := by
          show (freefall (freefall st dt) (-dt)).t_path = st.t_path
          simp only [freefall]
          ring
        clear_value st2
        have hb2 : ttnf_b pp st2 = ttnf_b pp st := by
          simp only [ttnf_b, hst2vel, hst2step]
        have hc2 : ttnf_c pp st + 0.00002 ≤ ttnf_c pp st2 :=
          ttnf_c_ge_of_lowered pp st st2 hst2step hst2low hst2t hst2pos
        have hc2pos : 0 < ttnf_c pp st2 := by linarith
        have hd2 : 0.00001 ≤ ttnf_disc pp st2 := by
          rw [ttnf_disc, hb2, hg]
          rw [ttnf_disc, hg] at hd
          linarith
        obtain ⟨dt2, hdt2, hpos2⟩ := ttnf_some_pos pp st2 hc2pos hd2
        rw [flap_step] at hfs
        simp only [if_pos htou, hact, ← hst2, hdt2, Option.map_some'] at hfs
        obtain rfl := Option.some.inj hfs
        constructor
        · show (freefall st2 dt2).flap_times ++ [(freefall st2 dt2).t_path] =
            st.flap_times ++ [(freefall st2 dt2).t_path]
          rw [show (freefall st2 dt2).flap_times = st2.flap_times from rfl,
            hst2flaps]
        · show st.t_path < st2.t_path + dt2
          rw [hst2t]
          linarith
  · -- no touch: the computed flap time is appended directly
    rw [flap_step] at hfs
    simp only [if_neg htou, Option.map_some'] at hfs
    obtain rfl := Option.some.inj hfs
    refine ⟨rfl, ?_⟩
    show st.t_path < st.t_path + dt
    linarith

/-- C3 amended witness: a concrete step-0 tail (bird `0.00001` above the
flap line, velocity `79983/400000`, discriminant exactly
`(80017/400000)^2`) appends the single timestamp `4/17`, strictly later
than the starting path time `0`. -/
theorem C3_successful_iteration_appends_later_time_witness :
    flap_step ⟨⟨1 / 4, 1 / 2⟩, ⟨5 / 4, 1 / 2⟩, false⟩
        ⟨0, false, 0, 46001 / 100000, 79983 / 400000, []⟩ (4 / 17) =
      some ⟨0, false, 4 / 17, 46001 / 100000, 239983 / 400000, [4 / 17]⟩ ∧
    ([(4 / 17 : ℝ)] = ([] : List ℝ) ++ [(4 / 17 : ℝ)] ∧
      (0 : ℝ) < 4 / 17) := by
  have hg : Bird.GRAVITY_ACCEL = (-1.7 : ℝ) := rfl
  have hb : ttnf_b ⟨⟨1 / 4, 1 / 2⟩, ⟨5 / 4, 1 / 2⟩, false⟩
      ⟨0, false, 0, 46001 / 100000, 79983 / 400000, []⟩ = 79983 / 400000 := by
    norm_num [ttnf_b, curr_slope]
  have hcval : ttnf_c ⟨⟨1 / 4, 1 / 2⟩, ⟨5 / 4, 1 / 2⟩, false⟩
      ⟨0, false, 0, 46001 / 100000, 79983 / 400000, []⟩ = 1 / 100000 := by
    norm_num [ttnf_c, ttnf_y_offset, normal_y_offset, Pipe.OPENING, Bird.HEIGHT]
  have hc : (0 : ℝ) < ttnf_c ⟨⟨1 / 4, 1 / 2⟩, ⟨5 / 4, 1 / 2⟩, false⟩
      ⟨0, false, 0, 46001 / 100000, 79983 / 400000, []⟩ := by
    rw [hcval]
    norm_num
  have hd : (0.00001 : ℝ) ≤ ttnf_disc ⟨⟨1 / 4, 1 / 2⟩, ⟨5 / 4, 1 / 2⟩, false⟩
      ⟨0, false, 0, 46001 / 100000, 79983 / 400000, []⟩ := by
    rw [ttnf_disc, hb, hcval]
    norm_num [hg]
  have hdt : time_to_next_flap ⟨⟨1 / 4, 1 / 2⟩, ⟨5 / 4, 1 / 2⟩, false⟩
      ⟨0, false, 0, 46001 / 100000, 79983 / 400000, []⟩ = some (4 / 17) := by
    rw [time_to_next_flap, quadratic_formula_eval_sq (0.5 * Bird.GRAVITY_ACCEL)
      _ _ (6402720289 / 160000000000) (80017 / 400000)
      (by rw [hb, hcval]; norm_num [hg]) (by norm_num [abs_of_nonneg])
      (by norm_num) (by norm_num) (by norm_num [hg])]
    rw [hb]
    norm_num [hg]
  have hff : freefall ⟨0, false, 0, 46001 / 100000, 79983 / 400000,
        ([] : List ℝ)⟩ (4 / 17) =
      ⟨0, false, 4 / 17, 46001 / 100000, -80017 / 400000, []⟩ := by
    simp only [freefall]
    norm_num [hg]
  have htch : ¬ touches_pipe_on_y ⟨⟨1 / 4, 1 / 2⟩, ⟨5 / 4, 1 / 2⟩, false⟩
      ⟨0, false, 4 / 17, 46001 / 100000, -80017 / 400000, []⟩ := by
    norm_num [touches_pipe_on_y, max_height, y_vel_after_flap,
      Bird.FLAP_DELTA_V, Bird.GRAVITY_ACCEL, Bird.HEIGHT, Pipe.OPENING]
  have hfs : flap_step ⟨⟨1 / 4, 1 / 2⟩, ⟨5 / 4, 1 / 2⟩, false⟩
      ⟨0, false, 0, 46001 / 100000, 79983 / 400000, []⟩ (4 / 17) =
      some ⟨0, false, 4 / 17, 46001 / 100000, 239983 / 400000, [4 / 17]⟩ := by
    rw [flap_step]
    simp only [hff, if_neg htch, Option.map_some']
    simp only [y_vel_after_flap]
    norm_num [Bird.FLAP_DELTA_V]
  exact ⟨hfs, C3_successful_iteration_appends_later_time
    ⟨⟨1 / 4, 1 / 2⟩, ⟨5 / 4, 1 / 2⟩, false⟩
    ⟨0, false, 0, 46001 / 100000, 79983 / 400000, []⟩ (4 / 17)
    ⟨0, false, 4 / 17, 46001 / 100000, 239983 / 400000, [4 / 17]⟩
    hc hd hdt hfs⟩


/-! ### Symbolic evaluation helpers for concrete planner runs -/

/-- Evaluate `time_to_next_flap` when the discriminant `D` is known but
its square root is irrational (the root is returned in closed form). -/
theorem ttnf_eval (pp : PlanParams) (st : PlanState) (b c D : ℝ)
    (hb : ttnf_b pp st = b) (hc : ttnf_c pp st = c)
    (hD : b ^ 2 - 4 * (0.5 * Bird.GRAVITY_ACCEL) * c = D)
    (htol : ¬ |D| < 0.00001) (hpos : 0 ≤ D) :
    time_to_next_flap pp st =
      some ((-b - Real.sqrt D) / (2 * (0.5 * Bird.GRAVITY_ACCEL))) := by
  simp only [time_to_next_flap, hb, hc]
  rw [quadratic_formula_eval _ b c D hD htol hpos
    (by norm_num [Bird.GRAVITY_ACCEL])]
  rfl

/-- Evaluate `time_to_next_flap` when the discriminant is the perfect
square of the rational `s`, giving the exact root `dt`. -/
theorem ttnf_eval_sq (pp : PlanParams) (st : PlanState) (b c D s dt : ℝ)
    (hb : ttnf_b pp st = b) (hc : ttnf_c pp st = c)
    (hD : b ^ 2 - 4 * (0.5 * Bird.GRAVITY_ACCEL) * c = D)
    (htol : ¬ |D| < 0.00001) (hs : 0 ≤ s) (hsq : s ^ 2 = D)
    (hdt : (-b - s) / (2 * (0.5 * Bird.GRAVITY_ACCEL)) = dt) :
    time_to_next_flap pp st = some dt := by
  simp only [time_to_next_flap, hb, hc]
  rw [quadratic_formula_eval_sq _ b c D s hD htol hs hsq
    (by norm_num [Bird.GRAVITY_ACCEL])]
  simp only [Option.map_some']
  rw [hdt]

/-- Lower-bound the `minus` root of the flap-time quadratic (with
`a = 0.5 * GRAVITY_ACCEL = -0.85`) without computing its square root. -/
theorem minus_root_gt (b D q : ℝ) (hD : 0 ≤ D)
    (h : 1.7 * q - b < 0 ∨ (0 ≤ 1.7 * q - b ∧ (1.7 * q - b) ^ 2 < D)) :
    q < (-b - Real.sqrt D) / (2 * (0.5 * Bird.GRAVITY_ACCEL)) := by
  have hsq : 1.7 * q - b < Real.sqrt D := by
    rcases h with h | ⟨h0, h1⟩
    · exact lt_of_lt_of_le h (Real.sqrt_nonneg D)
    · exact (Real.lt_sqrt h0).mpr h1
  rw [show (2 * (0.5 * Bird.GRAVITY_ACCEL)) = (-1.7 : ℝ) from by
    norm_num [Bird.GRAVITY_ACCEL]]
  rw [lt_div_iff_of_neg (by norm_num : (-1.7 : ℝ) < 0)]
  linarith

/-- Evaluate `flap_step` when the touches-pipe check is negative. -/
theorem flap_step_no_touch_eval (pp : PlanParams) (st st1 : PlanState) (dt : ℝ)
    (h1 : freefall st dt = st1) (h2 : ¬ touches_pipe_on_y pp st1) :
    flap_step pp st dt =
      some { st1 with
        flap_times := st1.flap_times ++ [st1.t_path]
        y_vel := y_vel_after_flap st1 } := by
  simp only [flap_step, h1, if_neg h2, Option.map_some']

/-- One fueled loop iteration that crosses a step boundary (to a step
below 3), recomputes the flap time and runs the iteration tail. -/
theorem plan_loop_transition_step (pp : PlanParams) (st stA stB : PlanState)
    (n : ℕ) (dt dt2 : ℝ)
    (h1 : time_to_next_flap pp st = some dt)
    (h2 : st.t_path + dt > step_time pp st.curr_step)
    (h3 : ¬ st.curr_step + 1 = 3)
    (h4 : freefall { st with curr_step := st.curr_step + 1 }
      (step_time pp st.curr_step - st.t_path) = stA)
    (h5 : time_to_next_flap pp stA = some dt2)
    (h6 : flap_step pp stA dt2 = some stB) :
    plan_loop pp (n + 1) st = plan_loop pp n stB := by
  rw [plan_loop, h1]
  simp only [if_pos h2, if_neg h3, h4, h5, h6]

/-- The final fueled loop iteration: the computed flap time crosses the
end of step 2, so construction terminates. -/
theorem plan_loop_break (pp : PlanParams) (st : PlanState) (n : ℕ) (dt : ℝ)
    (h1 : time_to_next_flap pp st = some dt)
    (h2 : st.t_path + dt > step_time pp st.curr_step)
    (h3 : st.curr_step + 1 = 3) :
    plan_loop pp (n + 1) st = some (st.lower_offset, st.flap_times) := by
  rw [plan_loop, h1]
  simp only [if_pos h2, if_pos h3]

/-! ### A concrete planner run

With gap centers `(0.25, 0.5)` and `(0.252, 0.5)` the horizontal
separation is positive but smaller than the flat-zone span, making
`total_path_duration = 0.01` while the entry flat alone lasts `0.6125`;
the run below terminates with both flap times far beyond the path's
total duration. -/

/-- The concrete planner parameters of the run. -/
noncomputable def cex_pp : PlanParams := ⟨⟨1 / 4, 1 / 2⟩, ⟨63 / 250, 1 / 2⟩, false⟩

/-- Initial loop state of the run. -/
noncomputable def cex_st0 : PlanState :=
  ⟨0, false, 0, 171099201 / 340000000, 1 / 2, []⟩

/-- State after the first iteration's transition into step 1. -/
noncomputable def cex_stA : PlanState :=
  ⟨1, false, 49 / 80, 667229779 / 1360000000, -433 / 800, []⟩

/-- State after the first iteration (first flap appended). -/
noncomputable def cex_stB : PlanState :=
  ⟨1, false, 11301 / 17000, 46001 / 100000, 1699 / 10000, [11301 / 17000]⟩

/-- State after the second iteration's transition into step 2. -/
noncomputable def cex_stC : PlanState :=
  ⟨2, false, -241 / 400, -1523681621 / 1360000000, 9297 / 4000, [11301 / 17000]⟩

/-- State after the second iteration (second flap appended). -/
noncomputable def cex_stD : PlanState :=
  ⟨2, false, 14701 / 17000, 46001 / 100000, 6299 / 10000,
    [11301 / 17000, 14701 / 17000]⟩

theorem cex_slope :
    diag_slope ⟨⟨1 / 4, 1 / 2⟩, ⟨63 / 250, 1 / 2⟩, false⟩ = 0 := by
  simp only [diag_slope, diag_vector, Pos.sub_def, Pos.add_def]
  norm_num

theorem cex_step0 : step_time cex_pp 0 = 49 / 80 := by
  norm_num [step_time, t_on_flat, flat_radius, Pipe.WIDTH, Bird.WIDTH,
    Bird.X_VELOCITY]

theorem cex_step1 : step_time cex_pp 1 = -241 / 400 := by
  norm_num [step_time, t_on_flat, flat_radius, Pipe.WIDTH, Bird.WIDTH,
    Bird.X_VELOCITY, total_time, cex_pp, Pos.sub_def]

theorem cex_step2 : step_time cex_pp 2 = 1 / 100 := by
  norm_num [step_time, total_time, cex_pp, Pos.sub_def, Bird.X_VELOCITY]

/-- Iteration 1: the first solve overshoots the entry flat, the loop
clamps to the boundary, advances to step 1, resolves to the exact root
`1777/34000` and appends the first flap at `11301/17000`. -/
theorem cex_iteration1 (n : ℕ) :
    plan_loop cex_pp (n + 1) cex_st0 = plan_loop cex_pp n cex_stB := by
  refine plan_loop_transition_step cex_pp cex_st0 cex_stA cex_stB n
    ((-(1 / 2) - Real.sqrt (39699201 / 100000000)) /
      (2 * (0.5 * Bird.GRAVITY_ACCEL))) (1777 / 34000) ?_ ?_ ?_ ?_ ?_ ?_
  · exact ttnf_eval cex_pp cex_st0 (1 / 2) (14699201 / 340000000)
      (39699201 / 100000000)
      (by norm_num [ttnf_b, curr_slope, cex_st0, Bird.X_VELOCITY])
      (by norm_num [ttnf_c, ttnf_y_offset, normal_y_offset, cex_st0, cex_pp,
        Pipe.OPENING, Bird.HEIGHT])
      (by norm_num [Bird.GRAVITY_ACCEL]) (by norm_num [abs_of_nonneg])
      (by norm_num)
  · show cex_st0.t_path + _ > step_time cex_pp cex_st0.curr_step
    have hq := minus_root_gt (1 / 2) (39699201 / 100000000) (49 / 80)
      (by norm_num) (Or.inr ⟨by norm_num, by norm_num⟩)
    rw [show cex_st0.curr_step = 0 from rfl, cex_step0,
      show cex_st0.t_path = 0 from rfl]
    linarith
  · rw [show cex_st0.curr_step = 0 from rfl]
    norm_num
  · rw [show cex_st0.curr_step = 0 from rfl, cex_step0,
      show cex_st0.t_path = 0 from rfl]
    simp only [cex_st0, cex_stA, freefall]
    norm_num [Bird.GRAVITY_ACCEL]
  · exact ttnf_eval_sq cex_pp cex_stA (-433 / 800) (41629779 / 1360000000)
      (39702601 / 100000000) (6301 / 10000) (1777 / 34000)
      (by norm_num [ttnf_b, curr_slope, cex_stA, cex_pp, cex_slope])
      (by norm_num [ttnf_c, ttnf_y_offset, normal_y_offset, cex_stA, cex_pp,
        cex_slope, Pipe.OPENING, Bird.HEIGHT, flat_radius, Pipe.WIDTH,
        Bird.WIDTH, Bird.X_VELOCITY])
      (by norm_num [Bird.GRAVITY_ACCEL]) (by norm_num [abs_of_nonneg])
      (by norm_num) (by norm_num) (by norm_num [Bird.GRAVITY_ACCEL])
  · rw [flap_step_no_touch_eval cex_pp cex_stA
      ⟨1, false, 11301 / 17000, 46001 / 100000, -6301 / 10000, []⟩
      (1777 / 34000)
      (by simp only [cex_stA, freefall]; norm_num [Bird.GRAVITY_ACCEL])
      (by norm_num [touches_pipe_on_y, max_height, y_vel_after_flap, cex_pp,
        Bird.FLAP_DELTA_V, Bird.GRAVITY_ACCEL, Bird.HEIGHT, Pipe.OPENING])]
    simp only [cex_stB, y_vel_after_flap]
    norm_num [Bird.FLAP_DELTA_V]

/-- Iteration 2: the solve from the first flap crosses the (degenerate,
negative) end of step 1; the loop free-falls backwards to that boundary,
advances to step 2, resolves to the exact root `49887/34000` and appends
the second flap at `14701/17000`. -/
theorem cex_iteration2 (n : ℕ) :
    plan_loop cex_pp (n + 1) cex_stB = plan_loop cex_pp n cex_stD := by
  refine plan_loop_transition_step cex_pp cex_stB cex_stC cex_stD n
    ((-(1699 / 10000) - Real.sqrt (2890001 / 100000000)) /
      (2 * (0.5 * Bird.GRAVITY_ACCEL))) (49887 / 34000) ?_ ?_ ?_ ?_ ?_ ?_
  · exact ttnf_eval cex_pp cex_stB (1699 / 10000) (1 / 100000)
      (2890001 / 100000000)
      (by norm_num [ttnf_b, curr_slope, cex_stB, cex_pp, cex_slope])
      (by norm_num [ttnf_c, ttnf_y_offset, normal_y_offset, cex_stB, cex_pp,
        cex_slope, Pipe.OPENING, Bird.HEIGHT])
      (by norm_num [Bird.GRAVITY_ACCEL]) (by norm_num [abs_of_nonneg])
      (by norm_num)
  · show cex_stB.t_path + _ > step_time cex_pp cex_stB.curr_step
    have hq := minus_root_gt (1699 / 10000) (2890001 / 100000000)
      (-241 / 400 - 11301 / 17000) (by norm_num) (Or.inl (by norm_num))
    rw [show cex_stB.curr_step = 1 from rfl, cex_step1,
      show cex_stB.t_path = 11301 / 17000 from rfl]
    linarith
  · rw [show cex_stB.curr_step = 1 from rfl]
    norm_num
  · rw [show cex_stB.curr_step = 1 from rfl, cex_step1,
      show cex_stB.t_path = 11301 / 17000 from rfl]
    simp only [cex_stB, cex_stC, freefall]
    norm_num [Bird.GRAVITY_ACCEL]
  · exact ttnf_eval_sq cex_pp cex_stC (9297 / 4000) (-2149281621 / 1360000000)
      (2893401 / 100000000) (1701 / 10000) (49887 / 34000)
      (by norm_num [ttnf_b, curr_slope, cex_stC])
      (by norm_num [ttnf_c, ttnf_y_offset, normal_y_offset, cex_stC, cex_pp,
        Pipe.OPENING, Bird.HEIGHT])
      (by norm_num [Bird.GRAVITY_ACCEL]) (by norm_num [abs_of_nonneg])
      (by norm_num) (by norm_num) (by norm_num [Bird.GRAVITY_ACCEL])
  · rw [flap_step_no_touch_eval cex_pp cex_stC
      ⟨2, false, 14701 / 17000, 46001 / 100000, -1701 / 10000,
        [11301 / 17000]⟩ (49887 / 34000)
      (by simp only [cex_stC, freefall]; norm_num [Bird.GRAVITY_ACCEL])
      (by norm_num [touches_pipe_on_y, max_height, y_vel_after_flap, cex_pp,
        Bird.FLAP_DELTA_V, Bird.GRAVITY_ACCEL, Bird.HEIGHT, Pipe.OPENING])]
    simp only [cex_stD, y_vel_after_flap]
    norm_num [Bird.FLAP_DELTA_V]

/-- Iteration 3: the solve from the second flap crosses the end of step 2
and construction terminates. -/
theorem cex_iteration3 (n : ℕ) :
    plan_loop cex_pp (n + 1) cex_stD =
      some (false, [11301 / 17000, 14701 / 17000]) := by
  have hbreak := plan_loop_break cex_pp cex_stD n
    ((-(6299 / 10000) - Real.sqrt (39680801 / 100000000)) /
      (2 * (0.5 * Bird.GRAVITY_ACCEL)))
    (ttnf_eval cex_pp cex_stD (6299 / 10000) (1 / 100000)
      (39680801 / 100000000)
      (by norm_num [ttnf_b, curr_slope, cex_stD])
      (by norm_num [ttnf_c, ttnf_y_offset, normal_y_offset, cex_stD, cex_pp,
        Pipe.OPENING, Bird.HEIGHT])
      (by norm_num [Bird.GRAVITY_ACCEL]) (by norm_num [abs_of_nonneg])
      (by norm_num))
    (by
      show cex_stD.t_path + _ > step_time cex_pp cex_stD.curr_step
      have hq := minus_root_gt (6299 / 10000) (39680801 / 100000000)
        (1 / 100 - 14701 / 17000) (by norm_num) (Or.inl (by norm_num))
      rw [show cex_stD.curr_step = 2 from rfl, cex_step2,
        show cex_stD.t_path = 14701 / 17000 from rfl]
      linarith)
    (by rw [show cex_stD.curr_step = 2 from rfl])
  rw [hbreak]
  rfl

/-- The full run: with fuel 3 the planner returns the schedule
`[11301/17000, 14701/17000]` and the `false` lowered flag. -/
theorem cex_planner_run :
    new_path_flap_times (171099201 / 340000000) (1 / 2) false
      ⟨1 / 4, 1 / 2⟩ ⟨63 / 250, 1 / 2⟩ 3 =
      some (false, [11301 / 17000, 14701 / 17000]) := by
  show plan_loop cex_pp 3 cex_st0 = _
  rw [show (3 : ℕ) = 2 + 1 from rfl, cex_iteration1 2,
    show (2 : ℕ) = 1 + 1 from rfl, cex_iteration2 1,
    show (1 : ℕ) = 0 + 1 from rfl, cex_iteration3 0]

/-! ### A second concrete planner run, for the C3 counterexample

Same gap-center separation `0.002`, but the second gap center is lower:
the descending diagonal makes the step-1 flap line fall with time, so
after the first flap the backward transition to the (negative) end of
step 1 rewinds the path clock by `1.676` seconds and the second solve
appends a timestamp below the first.  Both flap times also exceed the
total path duration `0.01`. -/

/-- The planner parameters of the second run. -/
noncomputable def cex2_pp : PlanParams :=
  ⟨⟨1 / 4, 1 / 2⟩, ⟨63 / 250, 5243 / 10000⟩, false⟩

/-- Initial loop state of the second run. -/
noncomputable def cex2_st0 : PlanState :=
  ⟨0, false, 0, 62471847 / 80000000, 12099 / 20000, []⟩

/-- State after the first iteration's transition into step 1. -/
noncomputable def cex2_stA : PlanState :=
  ⟨1, false, 49 / 80, 16651143 / 20000000, -4363 / 10000, []⟩

/-- State after the first iteration (first flap appended). -/
noncomputable def cex2_stB : PlanState :=
  ⟨1, false, 2147 / 2000, 45079 / 100000, -21 / 50, [2147 / 2000]⟩

/-- State after the second iteration's backward transition into step 2. -/
noncomputable def cex2_stC : PlanState :=
  ⟨2, false, -241 / 400, -1541137 / 1250000, 6073 / 2500, [2147 / 2000]⟩

/-- State after the second iteration (second flap appended). -/
noncomputable def cex2_stD : PlanState :=
  ⟨2, false, 1947 / 2000, 48431 / 100000, 11 / 20,
    [2147 / 2000, 1947 / 2000]⟩

theorem cex2_slope :
    diag_slope ⟨⟨1 / 4, 1 / 2⟩, ⟨63 / 250, 5243 / 10000⟩, false⟩ = -1 / 10 := by
  simp only [diag_slope, diag_vector, Pos.sub_def, Pos.add_def]
  norm_num [flat_radius, Pipe.WIDTH, Bird.WIDTH]

theorem cex2_step0 : step_time cex2_pp 0 = 49 / 80 := by
  norm_num [step_time, t_on_flat, flat_radius, Pipe.WIDTH, Bird.WIDTH,
    Bird.X_VELOCITY]

theorem cex2_step1 : step_time cex2_pp 1 = -241 / 400 := by
  norm_num [step_time, t_on_flat, flat_radius, Pipe.WIDTH, Bird.WIDTH,
    Bird.X_VELOCITY, total_time, cex2_pp, Pos.sub_def]

theorem cex2_step2 : step_time cex2_pp 2 = 1 / 100 := by
  norm_num [step_time, total_time, cex2_pp, Pos.sub_def, Bird.X_VELOCITY]

/-- Iteration 1: the first solve overshoots the entry flat, the loop
clamps to the boundary, advances to step 1, resolves to the exact root
`461/1000` and appends the first flap at `2147/2000`. -/
theorem cex2_iteration1 (n : ℕ) :
    plan_loop cex2_pp (n + 1) cex2_st0 = plan_loop cex2_pp n cex2_stB := by
  refine plan_loop_transition_step cex2_pp cex2_st0 cex2_stA cex2_stB n
    ((-(12099 / 20000) - Real.sqrt (728509 / 500000)) /
      (2 * (0.5 * Bird.GRAVITY_ACCEL))) (461 / 1000) ?_ ?_ ?_ ?_ ?_ ?_
  · exact ttnf_eval cex2_pp cex2_st0 (12099 / 20000) (25671847 / 80000000)
      (728509 / 500000)
      (by norm_num [ttnf_b, curr_slope, cex2_st0, Bird.X_VELOCITY])
      (by norm_num [ttnf_c, ttnf_y_offset, normal_y_offset, cex2_st0, cex2_pp,
        Pipe.OPENING, Bird.HEIGHT])
      (by norm_num [Bird.GRAVITY_ACCEL]) (by norm_num [abs_of_nonneg])
      (by norm_num)
  · show cex2_st0.t_path + _ > step_time cex2_pp cex2_st0.curr_step
    have hq := minus_root_gt (12099 / 20000) (728509 / 500000) (49 / 80)
      (by norm_num) (Or.inr ⟨by norm_num, by norm_num⟩)
    rw [show cex2_st0.curr_step = 0 from rfl, cex2_step0,
      show cex2_st0.t_path = 0 from rfl]
    linarith
  · rw [show cex2_st0.curr_step = 0 from rfl]
    norm_num
  · rw [show cex2_st0.curr_step = 0 from rfl, cex2_step0,
      show cex2_st0.t_path = 0 from rfl]
    simp only [cex2_st0, cex2_stA, freefall]
    norm_num [Bird.GRAVITY_ACCEL]
  · exact ttnf_eval_sq cex2_pp cex2_stA (-4163 / 10000) (7451143 / 20000000)
      (36 / 25) (6 / 5) (461 / 1000)
      (by norm_num [ttnf_b, curr_slope, cex2_stA, cex2_pp, cex2_slope,
        Bird.X_VELOCITY])
      (by norm_num [ttnf_c, ttnf_y_offset, normal_y_offset, cex2_stA, cex2_pp,
        cex2_slope, Pipe.OPENING, Bird.HEIGHT, flat_radius, Pipe.WIDTH,
        Bird.WIDTH, Bird.X_VELOCITY])
      (by norm_num [Bird.GRAVITY_ACCEL]) (by norm_num [abs_of_nonneg])
      (by norm_num) (by norm_num) (by norm_num [Bird.GRAVITY_ACCEL])
  · rw [flap_step_no_touch_eval cex2_pp cex2_stA
      ⟨1, false, 2147 / 2000, 45079 / 100000, -61 / 50, []⟩ (461 / 1000)
      (by simp only [cex2_stA, freefall]; norm_num [Bird.GRAVITY_ACCEL])
      (by norm_num [touches_pipe_on_y, max_height, y_vel_after_flap, cex2_pp,
        Bird.FLAP_DELTA_V, Bird.GRAVITY_ACCEL, Bird.HEIGHT, Pipe.OPENING])]
    simp only [cex2_stB, y_vel_after_flap]
    norm_num [Bird.FLAP_DELTA_V]

/-- Iteration 2: the solve from the first flap crosses the (negative) end
of step 1; the loop free-falls backwards by `1.676` seconds to that
boundary, advances to step 2, resolves to the exact root `197/125` and
appends the second flap at `1947/2000 < 2147/2000`. -/
theorem cex2_iteration2 (n : ℕ) :
    plan_loop cex2_pp (n + 1) cex2_stB = plan_loop cex2_pp n cex2_stD := by
  refine plan_loop_transition_step cex2_pp cex2_stB cex2_stC cex2_stD n
    ((-(-2 / 5) - Real.sqrt (80017 / 500000)) /
      (2 * (0.5 * Bird.GRAVITY_ACCEL))) (197 / 125) ?_ ?_ ?_ ?_ ?_ ?_
  · exact ttnf_eval cex2_pp cex2_stB (-2 / 5) (1 / 100000) (80017 / 500000)
      (by norm_num [ttnf_b, curr_slope, cex2_stB, cex2_pp, cex2_slope,
        Bird.X_VELOCITY])
      (by norm_num [ttnf_c, ttnf_y_offset, normal_y_offset, cex2_stB, cex2_pp,
        cex2_slope, Pipe.OPENING, Bird.HEIGHT, flat_radius, Pipe.WIDTH,
        Bird.WIDTH, Bird.X_VELOCITY])
      (by norm_num [Bird.GRAVITY_ACCEL]) (by norm_num [abs_of_nonneg])
      (by norm_num)
  · show cex2_stB.t_path + _ > step_time cex2_pp cex2_stB.curr_step
    have hq := minus_root_gt (-2 / 5) (80017 / 500000)
      (-241 / 400 - 2147 / 2000) (by norm_num) (Or.inl (by norm_num))
    rw [show cex2_stB.curr_step = 1 from rfl, cex2_step1,
      show cex2_stB.t_path = 2147 / 2000 from rfl]
    linarith
  · rw [show cex2_stB.curr_step = 1 from rfl]
    norm_num
  · rw [show cex2_stB.curr_step = 1 from rfl, cex2_step1,
      show cex2_stB.t_path = 2147 / 2000 from rfl]
    simp only [cex2_stB, cex2_stC, freefall]
    norm_num [Bird.GRAVITY_ACCEL]
  · exact ttnf_eval_sq cex2_pp cex2_stC (6073 / 2500) (-134157 / 78125)
      (1 / 16) (1 / 4) (197 / 125)
      (by norm_num [ttnf_b, curr_slope, cex2_stC])
      (by norm_num [ttnf_c, ttnf_y_offset, normal_y_offset, cex2_stC, cex2_pp,
        Pipe.OPENING, Bird.HEIGHT])
      (by norm_num [Bird.GRAVITY_ACCEL]) (by norm_num [abs_of_nonneg])
      (by norm_num) (by norm_num) (by norm_num [Bird.GRAVITY_ACCEL])
  · rw [flap_step_no_touch_eval cex2_pp cex2_stC
      ⟨2, false, 1947 / 2000, 48431 / 100000, -1 / 4, [2147 / 2000]⟩
      (197 / 125)
      (by simp only [cex2_stC, freefall]; norm_num [Bird.GRAVITY_ACCEL])
      (by norm_num [touches_pipe_on_y, max_height, y_vel_after_flap, cex2_pp,
        Bird.FLAP_DELTA_V, Bird.GRAVITY_ACCEL, Bird.HEIGHT, Pipe.OPENING])]
    simp only [cex2_stD, y_vel_after_flap]
    norm_num [Bird.FLAP_DELTA_V]

/-- Iteration 3: the solve from the second flap crosses the end of step 2
and construction terminates. -/
theorem cex2_iteration3 (n : ℕ) :
    plan_loop cex2_pp (n + 1) cex2_stD =
      some (false, [2147 / 2000, 1947 / 2000]) := by
  have hbreak := plan_loop_break cex2_pp cex2_stD n
    ((-(11 / 20) - Real.sqrt (151267 / 500000)) /
      (2 * (0.5 * Bird.GRAVITY_ACCEL)))
    (ttnf_eval cex2_pp cex2_stD (11 / 20) (1 / 100000) (151267 / 500000)
      (by norm_num [ttnf_b, curr_slope, cex2_stD])
      (by norm_num [ttnf_c, ttnf_y_offset, normal_y_offset, cex2_stD, cex2_pp,
        Pipe.OPENING, Bird.HEIGHT])
      (by norm_num [Bird.GRAVITY_ACCEL]) (by norm_num [abs_of_nonneg])
      (by norm_num))
    (by
      show cex2_stD.t_path + _ > step_time cex2_pp cex2_stD.curr_step
      have hq := minus_root_gt (11 / 20) (151267 / 500000)
        (1 / 100 - 1947 / 2000) (by norm_num) (Or.inl (by norm_num))
      rw [show cex2_stD.curr_step = 2 from rfl, cex2_step2,
        show cex2_stD.t_path = 1947 / 2000 from rfl]
      linarith)
    (by rw [show cex2_stD.curr_step = 2 from rfl])
  rw [hbreak]
  rfl

/-- The full second run: with fuel 3 the planner returns the schedule
`[2147/2000, 1947/2000]` and the `false` lowered flag. -/
theorem cex2_planner_run :
    new_path_flap_times (62471847 / 80000000) (12099 / 20000) false
      ⟨1 / 4, 1 / 2⟩ ⟨63 / 250, 5243 / 10000⟩ 3 =
      some (false, [2147 / 2000, 1947 / 2000]) := by
  show plan_loop cex2_pp 3 cex2_st0 = _
  rw [show (3 : ℕ) = 2 + 1 from rfl, cex2_iteration1 2,
    show (2 : ℕ) = 1 + 1 from rfl, cex2_iteration2 1,
    show (1 : ℕ) = 0 + 1 from rfl, cex2_iteration3 0]

/-- C3 counterexample: for the agent at `y = 62471847/80000000` with
velocity `12099/20000` and gap centers `(0.25, 0.5)` and
`(0.252, 0.5243)` (positive horizontal separation `0.002`, so
`total_path_duration = 0.01`), the planner returns the schedule
`[2147/2000, 1947/2000]`: the second timestamp is strictly smaller than
the first, so the list is not strictly increasing, and the first exceeds
`total_path_duration` — both halves of the claimed invariant fail on this
one run. -/
theorem C3_schedule_not_increasing_and_out_of_range :
    new_path_flap_times (62471847 / 80000000) (12099 / 20000) false
        ⟨1 / 4, 1 / 2⟩ ⟨63 / 250, 5243 / 10000⟩ 3 =
      some (false, [2147 / 2000, 1947 / 2000]) ∧
    (1947 / 2000 : ℝ) < 2147 / 2000 ∧
    ((⟨63 / 250, 5243 / 10000⟩ : Pos) - ⟨1 / 4, 1 / 2⟩).x / Bird.X_VELOCITY <
      2147 / 2000 := by
  refine ⟨cex2_planner_run, by norm_num, ?_⟩
  rw [Pos.sub_def]
  norm_num [Bird.X_VELOCITY]

/-! ### The simulation controller (`main`'s event loop)

The enclosing-function mutable state captured by `main`'s closures.
`autopilot_events` embeds the autopilot branch of one tick (the sub-tick
event ordering and integration, game.py lines 379-442); the collision
check, pipe removal and pipe spawning that follow in the same tick are
embedded separately above as `collision_check`, `min_allowed_x` /
`Pipe.init_center` and `new_opening_height`. -/

/-- The controller state: the bird, the pipe centers (leftmost first), the
score, the active flap schedule with its lowered flag (`path_data`), and
the time spent on the current path. -/
structure GameState where
  bird : Bird
  pipes : List Pos
  score : ℕ
  path_data : Bool × List ℝ
  time_on_path : ℝ

/-- The two sub-tick event kinds of an autopilot tick. -/
inductive Ev
  | flap
  | passPipe
deriving DecidableEq

/-- Advance every game object and the path clock by `t` (the
`bird.update` / `pipe.update` / `time_on_path` block that runs before
each event and at the end of the frame). -/
noncomputable def integrate (st : GameState) (t : ℝ) : GameState :=
  { st with
    bird := st.bird.update t
    pipes := st.pipes.map fun p => Pipe.update p t
    time_on_path := st.time_on_path + t }

/-- Apply one sub-tick event.  `flap` applies the impulse and pops the
schedule's earliest entry (Python pops the list object captured at tick
start; since the flap entry always precedes the pipe entry in the event
list, that object is still the current `path_data[1]` when the pop runs,
so popping the current schedule is equivalent); `passPipe` increments the
score and replans from the crossed pipe to the next one (`none` models an
index error or a planner exception). -/
noncomputable def apply_event (fuel pipe_index : ℕ) :
    Ev → GameState → Option GameState
  | Ev.flap, st =>
    some { st with
      bird := st.bird.flap
      path_data := (st.path_data.1, st.path_data.2.tail) }
  | Ev.passPipe, st =>
    match st.pipes.get? pipe_index, st.pipes.get? (pipe_index + 1) with
    | some pi_, some pf =>
      match new_path_flap_times st.bird.pos.y st.bird.y_vel st.path_data.1
          pi_ pf fuel with
      | none => none
      | some pd =>
        some { st with score := st.score + 1, path_data := pd, time_on_path := 0 }
    | _, _ => none

/-- Run the tick's event list in order: integrate up to each event's time,
then apply it, tracking `t_frame`. -/
noncomputable def run_events (fuel pipe_index : ℕ) :
    GameState → ℝ → List (Ev × ℝ) → Option (GameState × ℝ)
  | st, t_frame, [] => some (st, t_frame)
  | st, t_frame, e :: rest =>
    match apply_event fuel pipe_index e.1 (integrate st (e.2 - t_frame)) with
    | none => none
    | some st2 => run_events fuel pipe_index st2 (t_frame + (e.2 - t_frame)) rest

/-- Time within the frame at which the bird must flap (`delta_t` when no
flap is scheduled this frame). -/
noncomputable def t_to_flap_of (delta_t : ℝ) (st : GameState) : ℝ :=
  match st.path_data.2 with
  | [] => delta_t
  | t :: _ => t - st.time_on_path

/-- The autopilot branch of one tick (the event-ordering logic of `main`):
compute the in-frame flap and pipe-crossing times, build the event list —
the flap entry first, then the pipe entry — process it in list order, and
integrate the remainder of the frame.  Returns the new state and the
processed event trace; `none` models a raised exception. -/
noncomputable def autopilot_events (fuel : ℕ) (delta_t : ℝ) (st : GameState) :
    Option (GameState × List (Ev × ℝ)) :=
  let t_to_flap := t_to_flap_of delta_t st
  match st.pipes.get? 0 with
  | none => none
  | some p0 =>
    let t0 := (p0.x - st.bird.pos.x) / Bird.X_VELOCITY
    let choice : Option (ℝ × ℕ) :=
      if t0 < 0 then
        (st.pipes.get? 1).map
          (fun p1 => ((p1.x - st.bird.pos.x) / Bird.X_VELOCITY, 1))
      else some (t0, 0)
    match choice with
    | none => none
    | some (t_to_pipe, pipe_index) =>
      let event_list :=
        (if t_to_flap < delta_t then [(Ev.flap, t_to_flap)] else []) ++
        (if t_to_pipe < delta_t then [(Ev.passPipe, t_to_pipe)] else [])
      match run_events fuel pipe_index st 0 event_list with
      | none => none
      | some (st1, t_frame) =>
        some (integrate st1 (delta_t - t_frame), event_list)

/-- The K_SPACE handler of `main`'s event loop: a manual flap command,
honored only outside auto-solve mode. -/
noncomputable def handle_space (auto_solve : Bool) (st : GameState) : GameState :=
  if auto_solve then st else { st with bird := st.bird.flap }

/-- C8: an external flap command is silently ignored in Autopilot mode
(the whole state is returned unchanged, no error), and in Manual mode it
adds exactly `FLAP_DELTA_V` to the bird's vertical velocity and changes
nothing else. -/
theorem C8_space_key_mode_behavior (st : GameState) :
    handle_space true st = st ∧
    (handle_space false st).bird.y_vel = st.bird.y_vel + Bird.FLAP_DELTA_V ∧
    (handle_space false st).bird.pos = st.bird.pos ∧
    (handle_space false st).pipes = st.pipes ∧
    (handle_space false st).score = st.score ∧
    (handle_space false st).path_data = st.path_data ∧
    (handle_space false st).time_on_path = st.time_on_path :=
  ⟨rfl, rfl, rfl, rfl, rfl, rfl, rfl⟩

/-- The planner call as made by the controller: it reads the bird's
vertical position and velocity and the stored previous lowered flag, and
returns the new schedule together with the (unchanged) controller
state — the Python function assigns to none of the enclosing variables. -/
noncomputable def new_path_flap_times_call (st : GameState) (p1 p2 : Pos)
    (fuel : ℕ) : Option (Bool × List ℝ) × GameState :=
  (new_path_flap_times st.bird.pos.y st.bird.y_vel st.path_data.1 p1 p2 fuel, st)

/-- C10: the planner is observationally pure — calling it leaves the
controller state (bird, pipes, score, stored schedule, path clock)
exactly as it was, and its result depends only on what it reads: two
states agreeing on the bird's vertical position, vertical velocity and
the previous lowered flag yield identical results for the same gap
centers. -/
theorem C10_planner_pure (st st2 : GameState) (p1 p2 : Pos) (fuel : ℕ)
    (hy : st.bird.pos.y = st2.bird.pos.y)
    (hv : st.bird.y_vel = st2.bird.y_vel)
    (hl : st.path_data.1 = st2.path_data.1) :
    (new_path_flap_times_call st p1 p2 fuel).2 = st ∧
    (new_path_flap_times_call st p1 p2 fuel).1 =
      (new_path_flap_times_call st2 p1 p2 fuel).1 := by
  refine ⟨rfl, ?_⟩
  simp only [new_path_flap_times_call, hy, hv, hl]

/-- C10 witness: two concrete states differing in pipes, score, schedule
tail and path clock give the same planner result, and the state comes
back untouched. -/
theorem C10_planner_pure_witness :
    (new_path_flap_times_call ⟨⟨⟨0.25, 0.5⟩, 0⟩, [], 0, (false, []), 0⟩
        ⟨0.25, 0.5⟩ ⟨0.65, 0.5⟩ 3).2 =
      ⟨⟨⟨0.25, 0.5⟩, 0⟩, [], 0, (false, []), 0⟩ ∧
    (new_path_flap_times_call ⟨⟨⟨0.25, 0.5⟩, 0⟩, [], 0, (false, []), 0⟩
        ⟨0.25, 0.5⟩ ⟨0.65, 0.5⟩ 3).1 =
      (new_path_flap_times_call
        ⟨⟨⟨0.25, 0.5⟩, 0⟩, [⟨0.65, 0.5⟩], 5, (false, [1, 2]), 7⟩
        ⟨0.25, 0.5⟩ ⟨0.65, 0.5⟩ 3).1 :=
  C10_planner_pure ⟨⟨⟨0.25, 0.5⟩, 0⟩, [], 0, (false, []), 0⟩
    ⟨⟨⟨0.25, 0.5⟩, 0⟩, [⟨0.65, 0.5⟩], 5, (false, [1, 2]), 7⟩
    ⟨0.25, 0.5⟩ ⟨0.65, 0.5⟩ 3 rfl rfl rfl

/-- A trace of sub-tick events is chronological when its event times are
nondecreasing. -/
def chronological (tr : List (Ev × ℝ)) : Prop :=
  List.Chain' (fun a b => a.2 ≤ b.2) tr

/-- When both a flap and a pipe crossing fall within the frame (and the
first pipe is not yet behind the bird), the tick reduces to running the
two-element event list — the flap entry first — and integrating the
rest of the frame. -/
theorem autopilot_events_both (fuel : ℕ) (delta_t : ℝ) (st : GameState)
    (p0 : Pos) (hp0 : st.pipes.get? 0 = some p0)
    (h0 : ¬ (p0.x - st.bird.pos.x) / Bird.X_VELOCITY < 0)
    (hf : t_to_flap_of delta_t st < delta_t)
    (hp : (p0.x - st.bird.pos.x) / Bird.X_VELOCITY < delta_t) :
    autopilot_events fuel delta_t st =
      (run_events fuel 0 st 0
        [(Ev.flap, t_to_flap_of delta_t st),
         (Ev.passPipe, (p0.x - st.bird.pos.x) / Bird.X_VELOCITY)]).map
      (fun r => (integrate r.1 (delta_t - r.2),
        [(Ev.flap, t_to_flap_of delta_t st),
         (Ev.passPipe, (p0.x - st.bird.pos.x) / Bird.X_VELOCITY)])) := by
  simp only [autopilot_events, hp0, if_neg h0, if_pos hf, if_pos hp,
    List.singleton_append]
  rcases hrun : run_events fuel 0 st 0
    [(Ev.flap, t_to_flap_of delta_t st),
     (Ev.passPipe, (p0.x - st.bird.pos.x) / Bird.X_VELOCITY)] with _ | ⟨st1, tfr⟩
  · rfl
  · rfl

/-- C1 amended: the controller always processes the flap event before the
pipe-crossing event (the event list is built flap-first and run in list
order, with each kinematics step integrating from the post-event state);
whenever the scheduled flap time is at most the crossing time this order
is chronological, but when the crossing precedes the flap the events run
out of order. -/
theorem C1_flap_event_runs_first (fuel : ℕ) (delta_t : ℝ) (st : GameState)
    (p0 : Pos) (st' : GameState) (tr : List (Ev × ℝ))
    (hp0 : st.pipes.get? 0 = some p0)
    (h0 : ¬ (p0.x - st.bird.pos.x) / Bird.X_VELOCITY < 0)
    (hf : t_to_flap_of delta_t st < delta_t)
    (hp : (p0.x - st.bird.pos.x) / Bird.X_VELOCITY < delta_t)
    (hev : autopilot_events fuel delta_t st = some (st', tr))
    (hord : t_to_flap_of delta_t st ≤ (p0.x - st.bird.pos.x) / Bird.X_VELOCITY) :
    tr = [(Ev.flap, t_to_flap_of delta_t st),
          (Ev.passPipe, (p0.x - st.bird.pos.x) / Bird.X_VELOCITY)] ∧
    chronological tr := by
  rw [autopilot_events_both fuel delta_t st p0 hp0 h0 hf hp] at hev
  rcases hrun : run_events fuel 0 st 0
    [(Ev.flap, t_to_flap_of delta_t st),
     (Ev.passPipe, (p0.x - st.bird.pos.x) / Bird.X_VELOCITY)] with _ | ⟨st1, tfr⟩
  · rw [hrun] at hev
    exact Option.noConfusion hev
  · rw [hrun, Option.map_some'] at hev
    have htr := (Prod.mk.injEq .. ▸ Option.some.inj hev).2
    refine ⟨htr.symm, ?_⟩
    rw [← htr]
    exact List.chain'_pair.mpr hord

theorem run_events_nil (fuel pipe_index : ℕ) (st : GameState) (t_frame : ℝ) :
    run_events fuel pipe_index st t_frame [] = some (st, t_frame) := by
  rw [run_events]

theorem run_events_cons (fuel pipe_index : ℕ) (st st1 st2 : GameState)
    (t_frame : ℝ) (e : Ev × ℝ) (rest : List (Ev × ℝ))
    (h1 : integrate st (e.2 - t_frame) = st1)
    (h2 : apply_event fuel pipe_index e.1 st1 = some st2) :
    run_events fuel pipe_index st t_frame (e :: rest) =
      run_events fuel pipe_index st2 (t_frame + (e.2 - t_frame)) rest := by
  rw [run_events, h1, h2]

/-- The C1 counterexample's tick-start state: the flap is scheduled at
`0.005` into the frame but the first pipe's center is crossed at `0.002`,
both within the `0.01` frame. -/
noncomputable def c1c_st : GameState :=
  ⟨⟨⟨1 / 4, 34423609 / 68000000⟩, -1483 / 5000⟩,
    [⟨313 / 1250, 1 / 2⟩, ⟨631 / 2500, 1 / 2⟩], 0, (false, [1 / 200]), 0⟩

/-- The state after the C1 counterexample's tick. -/
noncomputable def c1c_final : GameState :=
  ⟨⟨⟨1 / 4, 34488141 / 68000000⟩, 304 / 625⟩,
    [⟨621 / 2500, 1 / 2⟩, ⟨313 / 1250, 1 / 2⟩], 1,
    (false, [11301 / 17000, 14701 / 17000]), 1 / 125⟩

theorem c1c_run :
    run_events 3 0 c1c_st 0 [(Ev.flap, 1 / 200), (Ev.passPipe, 1 / 500)] =
      some (⟨⟨⟨1 / 4, 171099201 / 340000000⟩, 1 / 2⟩,
        [⟨1 / 4, 1 / 2⟩, ⟨63 / 250, 1 / 2⟩], 1,
        (false, [11301 / 17000, 14701 / 17000]), 0⟩, 1 / 500) := by
  rw [run_events_cons 3 0 c1c_st
      ⟨⟨⟨1 / 4, 858033 / 1700000⟩, -3051 / 10000⟩,
        [⟨1247 / 5000, 1 / 2⟩, ⟨1257 / 5000, 1 / 2⟩], 0, (false, [1 / 200]),
        1 / 200⟩
      ⟨⟨⟨1 / 4, 858033 / 1700000⟩, 4949 / 10000⟩,
        [⟨1247 / 5000, 1 / 2⟩, ⟨1257 / 5000, 1 / 2⟩], 0, (false, []), 1 / 200⟩
      0 (Ev.flap, 1 / 200) _
      (by
        simp only [integrate, Bird.update, Pipe.update, c1c_st, List.map_cons,
          List.map_nil]
        norm_num [Bird.GRAVITY_ACCEL, Bird.X_VELOCITY])
      (by
        simp only [apply_event, Bird.flap]
        norm_num [Bird.FLAP_DELTA_V])]
  rw [show ((0 : ℝ) + (1 / 200 - 0)) = 1 / 200 from by norm_num]
  rw [run_events_cons 3 0 _
      ⟨⟨⟨1 / 4, 171099201 / 340000000⟩, 1 / 2⟩,
        [⟨1 / 4, 1 / 2⟩, ⟨63 / 250, 1 / 2⟩], 0, (false, []), 1 / 500⟩
      ⟨⟨⟨1 / 4, 171099201 / 340000000⟩, 1 / 2⟩,
        [⟨1 / 4, 1 / 2⟩, ⟨63 / 250, 1 / 2⟩], 1,
        (false, [11301 / 17000, 14701 / 17000]), 0⟩
      (1 / 200) (Ev.passPipe, 1 / 500) _
      (by
        simp only [integrate, Bird.update, Pipe.update, List.map_cons,
          List.map_nil]
        norm_num [Bird.GRAVITY_ACCEL, Bird.X_VELOCITY])
      (by
        simp only [apply_event, List.get?]
        rw [cex_planner_run])]
  rw [show ((1 : ℝ) / 200 + (1 / 500 - 1 / 200)) = 1 / 500 from by norm_num]
  exact run_events_nil 3 0 _ _

/-- C1 counterexample: at `c1c_st` the pipe crossing falls at `0.002` and
the scheduled flap at `0.005` within the same `0.01` tick, yet the
controller runs the flap event first — the processed trace carries times
`[0.005, 0.002]`, which is not in increasing order (the second kinematics
step integrates a negative duration). -/
theorem C1_events_processed_out_of_order :
    autopilot_events 3 (1 / 100) c1c_st =
      some (c1c_final, [(Ev.flap, 1 / 200), (Ev.passPipe, 1 / 500)]) ∧
    ¬ chronological [(Ev.flap, (1 / 200 : ℝ)), (Ev.passPipe, 1 / 500)] := by
  constructor
  · have hflap : t_to_flap_of (1 / 100) c1c_st = 1 / 200 := by
      simp only [t_to_flap_of, c1c_st]
      norm_num
    have hpip : ((⟨313 / 1250, 1 / 2⟩ : Pos).x - c1c_st.bird.pos.x) /
        Bird.X_VELOCITY = 1 / 500 := by
      norm_num [c1c_st, Bird.X_VELOCITY]
    rw [autopilot_events_both 3 (1 / 100) c1c_st ⟨313 / 1250, 1 / 2⟩
      (by simp [c1c_st]) (by rw [hpip]; norm_num) (by rw [hflap]; norm_num)
      (by rw [hpip]; norm_num), hflap, hpip, c1c_run, Option.map_some']
    rw [show ((1 : ℝ) / 100 - 1 / 500) = 1 / 125 from by norm_num]
    rw [show integrate
        ⟨⟨⟨1 / 4, 171099201 / 340000000⟩, 1 / 2⟩,
          [⟨1 / 4, 1 / 2⟩, ⟨63 / 250, 1 / 2⟩], 1,
          (false, [11301 / 17000, 14701 / 17000]), 0⟩ (1 / 125) = c1c_final
      from by
        simp only [integrate, Bird.update, Pipe.update, c1c_final,
          List.map_cons, List.map_nil]
        norm_num [Bird.GRAVITY_ACCEL, Bird.X_VELOCITY]]
  · simp only [chronological, List.chain'_pair]
    norm_num

/-- The C1 witness's tick-start state: the flap is scheduled at `0.002`
into the frame and the pipe crossing falls at `0.005`, both within the
`0.01` frame and in chronological order. -/
noncomputable def c1w_st : GameState :=
  ⟨⟨⟨1 / 4, 21348247 / 42500000⟩, -583 / 2000⟩,
    [⟨251 / 1000, 1 / 2⟩, ⟨253 / 1000, 1 / 2⟩], 0, (false, [1 / 500]), 0⟩

/-- The state after the C1 witness's tick. -/
noncomputable def c1w_final : GameState :=
  ⟨⟨⟨1 / 4, 21492747 / 42500000⟩, 983 / 2000⟩,
    [⟨249 / 1000, 1 / 2⟩, ⟨251 / 1000, 1 / 2⟩], 1,
    (false, [11301 / 17000, 14701 / 17000]), 1 / 200⟩

theorem c1w_run :
    run_events 3 0 c1w_st 0 [(Ev.flap, 1 / 500), (Ev.passPipe, 1 / 200)] =
      some (⟨⟨⟨1 / 4, 171099201 / 340000000⟩, 1 / 2⟩,
        [⟨1 / 4, 1 / 2⟩, ⟨63 / 250, 1 / 2⟩], 1,
        (false, [11301 / 17000, 14701 / 17000]), 0⟩, 1 / 200) := by
  rw [run_events_cons 3 0 c1w_st
      ⟨⟨⟨1 / 4, 852933 / 1700000⟩, -2949 / 10000⟩,
        [⟨1253 / 5000, 1 / 2⟩, ⟨1263 / 5000, 1 / 2⟩], 0, (false, [1 / 500]),
        1 / 500⟩
      ⟨⟨⟨1 / 4, 852933 / 1700000⟩, 5051 / 10000⟩,
        [⟨1253 / 5000, 1 / 2⟩, ⟨1263 / 5000, 1 / 2⟩], 0, (false, []), 1 / 500⟩
      0 (Ev.flap, 1 / 500) _
      (by
        simp only [integrate, Bird.update, Pipe.update, c1w_st, List.map_cons,
          List.map_nil]
        norm_num [Bird.GRAVITY_ACCEL, Bird.X_VELOCITY])
      (by
        simp only [apply_event, Bird.flap]
        norm_num [Bird.FLAP_DELTA_V])]
  rw [show ((0 : ℝ) + (1 / 500 - 0)) = 1 / 500 from by norm_num]
  rw [run_events_cons 3 0 _
      ⟨⟨⟨1 / 4, 171099201 / 340000000⟩, 1 / 2⟩,
        [⟨1 / 4, 1 / 2⟩, ⟨63 / 250, 1 / 2⟩], 0, (false, []), 1 / 200⟩
      ⟨⟨⟨1 / 4, 171099201 / 340000000⟩, 1 / 2⟩,
        [⟨1 / 4, 1 / 2⟩, ⟨63 / 250, 1 / 2⟩], 1,
        (false, [11301 / 17000, 14701 / 17000]), 0⟩
      (1 / 500) (Ev.passPipe, 1 / 200) _
      (by
        simp only [integrate, Bird.update, Pipe.update, List.map_cons,
          List.map_nil]
        norm_num [Bird.GRAVITY_ACCEL, Bird.X_VELOCITY])
      (by
        simp only [apply_event, List.get?]
        rw [cex_planner_run])]
  rw [show ((1 : ℝ) / 500 + (1 / 200 - 1 / 500)) = 1 / 200 from by norm_num]
  exact run_events_nil 3 0 _ _

/-- C1 amended witness: at `c1w_st` — flap at `0.002`, crossing at
`0.005` — the tick succeeds and the amended theorem yields that the trace
is flap-first and chronological. -/
theorem C1_flap_event_runs_first_witness :
    autopilot_events 3 (1 / 100) c1w_st =
      some (c1w_final, [(Ev.flap, 1 / 500), (Ev.passPipe, 1 / 200)]) ∧
    chronological [(Ev.flap, (1 / 500 : ℝ)), (Ev.passPipe, 1 / 200)] := by
  have hflap : t_to_flap_of (1 / 100) c1w_st = 1 / 500 := by
    simp only [t_to_flap_of, c1w_st]
    norm_num
  have hpip : ((⟨251 / 1000, 1 / 2⟩ : Pos).x - c1w_st.bird.pos.x) /
      Bird.X_VELOCITY = 1 / 200 := by
    norm_num [c1w_st, Bird.X_VELOCITY]
  have hev : autopilot_events 3 (1 / 100) c1w_st =
      some (c1w_final, [(Ev.flap, 1 / 500), (Ev.passPipe, 1 / 200)]) := by
    rw [autopilot_events_both 3 (1 / 100) c1w_st ⟨251 / 1000, 1 / 2⟩
      (by simp [c1w_st]) (by rw [hpip]; norm_num) (by rw [hflap]; norm_num)
      (by rw [hpip]; norm_num), hflap, hpip, c1w_run, Option.map_some']
    rw [show ((1 : ℝ) / 100 - 1 / 200) = 1 / 200 from by norm_num]
    rw [show integrate
        ⟨⟨⟨1 / 4, 171099201 / 340000000⟩, 1 / 2⟩,
          [⟨1 / 4, 1 / 2⟩, ⟨63 / 250, 1 / 2⟩], 1,
          (false, [11301 / 17000, 14701 / 17000]), 0⟩ (1 / 200) = c1w_final
      from by
        simp only [integrate, Bird.update, Pipe.update, c1w_final,
          List.map_cons, List.map_nil]
        norm_num [Bird.GRAVITY_ACCEL, Bird.X_VELOCITY]]
  refine ⟨hev, ?_⟩
  have h := C1_flap_event_runs_first 3 (1 / 100) c1w_st ⟨251 / 1000, 1 / 2⟩
    c1w_final [(Ev.flap, 1 / 500), (Ev.passPipe, 1 / 200)]
    (by simp [c1w_st]) (by rw [hpip]; norm_num) (by rw [hflap]; norm_num)
    (by rw [hpip]; norm_num) hev (by rw [hflap, hpip]; norm_num)
  exact h.2

end FlappyBird
